import Mathlib

/-!
# Verification of the Compliance Rule Evaluation Engine

A shallow embedding, in Lean 4, of the label-compliance rule engine found in
`backend/app/services/rule_engine.py` and `backend/app/utils/text_utils.py`,
together with proofs about the embedded definitions.

Modelling conventions:
* Python `float` values (similarity scores, millimetre measurements,
  confidences) are modelled as `ℚ`.
* Python `Optional[T]` fields are modelled as `Option T`; Python truthiness
  on optional strings (`if not x`) is modelled explicitly.
* The barcode detections are consumed by the engine as `Dict[str, Any]`
  values; a dictionary is modelled as a record of `Option` fields, where
  `d.get(k)` yields the `Option` and `d[k]` on a missing key raises.
  Exceptions are modelled by an `Except` result carrying the
  partially-updated accumulator state at the raise point (the Python
  `except Exception` handler in the engine then folds it back in).
* `thefuzz.fuzz.token_set_ratio` (backed by rapidfuzz) is translated as:
  default full processing (replace non-word characters by spaces, lowercase,
  strip), whitespace tokenisation into token *sets*, the empty-token-set
  guard returning 0, the early exit returning 100 when the intersection is
  non-empty and one of the differences is empty, and otherwise the maximum
  of the three pairwise Indel similarities of the joined sorted token
  strings, each rounded half-to-even to an integer percentage.  The word
  characters cover the ASCII fragment (`[A-Za-z0-9_]`) of Python's
  unicode-aware `\w`.
-/

namespace LabelAI

/-- `OCRData` (from `backend/app/services/ocr.py`): one OCR text fragment
with its pixel bounding box and confidence. -/
structure OCRData where
  text : String
  left : Int
  top : Int
  width : Int
  height : Int
  confidence : ℚ
deriving DecidableEq, Repr

/-- `BoundingBox` (from `backend/app/api/v1/schemas.py`). -/
structure BoundingBox where
  x : Int
  y : Int
  width : Int
  height : Int
deriving DecidableEq, Repr

/-- `HighlightedElement` (from `backend/app/api/v1/schemas.py`): the visual
verdict evidence emitted for one evaluated condition.  `status` is one of
the literals `"correct"`, `"wrong"`, `"info"`. -/
structure HighlightedElement where
  rule_id_ref : Option String
  bounding_box : BoundingBox
  status : String
  message : String
  found_value : Option String := none
  expected_value : Option String := none
  confidence : Option ℚ := none
deriving DecidableEq, Repr

/-- `RuleType` (from `backend/app/api/v1/schemas.py`). -/
inductive RuleType where
  | exact_text_match
  | font_size
  | spacing
  | barcode_dimensions
  | element_presence
  | translation_match
deriving DecidableEq, Repr

/-- The `.value` of each `RuleType` member (the Python enum string). -/
def RuleType.value : RuleType → String
  | .exact_text_match => "exact_text_match"
  | .font_size => "font_size"
  | .spacing => "spacing"
  | .barcode_dimensions => "barcode_dimensions"
  | .element_presence => "element_presence"
  | .translation_match => "translation_match"

/-- `RuleCondition` (from `backend/app/api/v1/schemas.py`), restricted to the
fields the rule engine reads.  Pydantic defaults (`case_sensitive=True`,
`tolerance_mm=0.5`) are construction-time defaults; evaluation sees
arbitrary `Option` values. -/
structure RuleCondition where
  type : RuleType
  target_element_description : Option String := none
  expected_text : Option String := none
  case_sensitive : Option Bool := some true
  expected_width_mm : Option ℚ := none
  expected_height_mm : Option ℚ := none
  tolerance_mm : Option ℚ := some (1/2)
deriving DecidableEq, Repr

/-- One detected barcode, as consumed by the engine: a Python
`Dict[str, Any]` with keys `data`, `bounding_box`, `measured_width_mm`,
`measured_height_mm` (the `type` key is never read by the engine).  Each
field is an `Option` because dictionary keys may be absent: `bc.get("data")`
reads the `Option`, while `bc["k"]` on `none` raises `KeyError`. -/
structure Barcode where
  data : Option String := none
  bounding_box : Option BoundingBox := none
  measured_width_mm : Option ℚ := none
  measured_height_mm : Option ℚ := none
deriving DecidableEq, Repr

/-! ## Similarity scorer (`backend/app/utils/text_utils.py`) -/

/-- A word character in the sense of Python's `\w` (ASCII fragment):
letters, digits, underscore. -/
def wordChar (c : Char) : Bool :=
  c.isAlphanum || c == '_'

/-- One character of `thefuzz.utils.full_process`: non-word characters are
replaced by a space, word characters are lowercased. -/
def processChar (c : Char) : Char :=
  if wordChar c then c.toLower else ' '

/-- Whitespace tokenisation (`str.split()` on the processed string, which
contains only spaces as separators): maximal runs of non-space characters. -/
def wordsAux : List Char → List Char → List (List Char)
  | [], acc => if acc.isEmpty then [] else [acc.reverse]
  | c :: cs, acc =>
    if c = ' ' then
      if acc.isEmpty then wordsAux cs [] else acc.reverse :: wordsAux cs []
    else
      wordsAux cs (c :: acc)

/-- The tokens of a character list. -/
def wordsOf (l : List Char) : List (List Char) :=
  wordsAux l []

/-- Strict lexicographic comparison of tokens by character code point, as
Python's `sorted` orders strings. -/
def tokLt : List Char → List Char → Bool
  | [], [] => false
  | [], _ :: _ => true
  | _ :: _, [] => false
  | a :: as, b :: bs => if a = b then tokLt as bs else decide (a < b)

/-- Insert into a sorted list, after any element that is not strictly
greater (so earlier elements with an equal key stay first). -/
def insertSorted (lt : α → α → Bool) (a : α) : List α → List α
  | [] => [a]
  | b :: bs => if lt a b then a :: b :: bs else b :: insertSorted lt a bs

/-- A stable sort by the strict order `lt` (insertion from the left),
modelling Python's stable `sorted`/`list.sort`.  Structurally recursive so
that concrete runs reduce inside the kernel. -/
def stableSort (lt : α → α → Bool) (l : List α) : List α :=
  l.foldl (fun acc x => insertSorted lt x acc) []

/-- The sorted deduplicated token set of a string under full processing:
`sorted(set(full_process(s).split()))`. -/
def tokenSetOf (s : String) : List (List Char) :=
  stableSort tokLt ((wordsOf (s.toList.map processChar)).dedup)

/-- Longest-common-subsequence row update (dynamic programming).  `prev` is
the previous DP row starting at the current column, `cur` the value computed
for the current row one column earlier. -/
def lcsRowAux (a : Char) : List Char → List Nat → Nat → List Nat
  | [], _, _ => []
  | b :: bs, prev, cur =>
    match prev with
    | [] => []
    | p0 :: rest =>
      let v := if a = b then p0 + 1 else max cur (rest.headD 0)
      v :: lcsRowAux a bs rest v

/-- Length of a longest common subsequence of two character lists. -/
def lcsLen (s t : List Char) : Nat :=
  (s.foldl (fun row a => 0 :: lcsRowAux a t row 0)
    (List.replicate (t.length + 1) 0)).getLastD 0

/-- Round half to even (Python `round`) for non-negative rationals. -/
def roundHalfEven (q : ℚ) : Int :=
  let n := ⌊q⌋
  let f := q - n
  if f < 1/2 then n
  else if 1/2 < f then n + 1
  else if n % 2 = 0 then n else n + 1

/-- Indel similarity of two character lists as an integer percentage
(`rapidfuzz` `ratio`: `100 * 2*lcs/(|s|+|t|)`, rounded; `100` when both are
empty). -/
def indelScore (s t : List Char) : Nat :=
  let lensum := s.length + t.length
  if lensum = 0 then 100
  else (roundHalfEven ((200 * lcsLen s t : ℚ) / lensum)).toNat

/-- Strip leading and trailing spaces (`str.strip()`; only spaces occur in
the processed strings). -/
def stripSpaces (l : List Char) : List Char :=
  ((l.dropWhile (· = ' ')).reverse.dropWhile (· = ' ')).reverse

/-- Join tokens with single spaces (`" ".join(...)`). -/
def joinTokens (ts : List (List Char)) : List Char :=
  List.intercalate [' '] ts

/-- `thefuzz.fuzz.token_set_ratio(s1, s2, force_ascii=False)` with default
full processing: integer percentage in `[0, 100]`. -/
def tokenSetScore (s1 s2 : String) : Nat :=
  let t1 := tokenSetOf s1
  let t2 := tokenSetOf s2
  if t1.isEmpty || t2.isEmpty then 0
  else
    let sect := t1.filter (fun w => decide (w ∈ t2))
    let d12 := t1.filter (fun w => decide (w ∉ t2))
    let d21 := t2.filter (fun w => decide (w ∉ t1))
    if !sect.isEmpty && (d12.isEmpty || d21.isEmpty) then 100
    else
      let jsect := joinTokens sect
      let j1 := stripSpaces (jsect ++ ' ' :: joinTokens d12)
      let j2 := stripSpaces (jsect ++ ' ' :: joinTokens d21)
      max (max (indelScore jsect j1) (indelScore jsect j2)) (indelScore j1 j2)

/-- `get_text_similarity_ratio` (from `backend/app/utils/text_utils.py`):
`0.0` when either string is empty, otherwise
`fuzz.token_set_ratio(text1, text2, force_ascii=False) / 100.0`. -/
def get_text_similarity (text1 text2 : String) : ℚ :=
  if text1.isEmpty || text2.isEmpty then 0
  else (tokenSetScore text1 text2 : ℚ) / 100

/-! ## Text fragment reconstructor (`backend/app/utils/text_utils.py`) -/

/-- The in-place `ocr_data.sort(key=lambda item: (item.top, item.left))`:
a stable sort by the `(top, left)` tuple. -/
def sortByTopLeft (l : List OCRData) : List OCRData :=
  stableSort (fun a b =>
    decide (a.top < b.top) || (decide (a.top = b.top) && decide (a.left < b.left))) l

/-- The vertical-alignment test of `reconstruct_text_blocks`: the candidate
joins the current line when the absolute difference of the vertical
midpoints is below `0.7 * previous.height`. -/
def sameLine (previous item : OCRData) : Bool :=
  decide (|((item.top : ℚ) + item.height / 2) - ((previous.top : ℚ) + previous.height / 2)|
    < (previous.height : ℚ) * (7/10))

/-- One step of the line-grouping walk.  The current line is kept reversed
so that its head is the most recently appended fragment (Python's
`current_line[-1]`). -/
def groupStep (acc : List (List OCRData) × List OCRData) (item : OCRData) :
    List (List OCRData) × List OCRData :=
  match acc.2 with
  | [] => (acc.1, [item])
  | prev :: rest =>
    if sameLine prev item then (acc.1, item :: prev :: rest)
    else (acc.1 ++ [(prev :: rest).reverse], [item])

/-- Group the (sorted) fragments into lines, in walk order. -/
def groupLines (sorted : List OCRData) : List (List OCRData) :=
  let r := sorted.foldl groupStep ([], [])
  if r.2.isEmpty then r.1 else r.1 ++ [r.2.reverse]

/-- Merge the fragments of one line into a single derived `OCRData`:
fragments sorted by `left`, texts joined with single spaces, envelope
bounding box, arithmetic-mean confidence.  An empty line yields `none`
(the `if not line: continue` guard). -/
def mergeLine (line : List OCRData) : Option OCRData :=
  match stableSort (fun a b => decide (a.left < b.left)) line with
  | [] => none
  | x :: xs =>
    some {
      text := String.intercalate " " ((x :: xs).map OCRData.text)
      left := (x :: xs).foldl (fun m it => min m it.left) x.left
      top := (x :: xs).foldl (fun m it => min m it.top) x.top
      width := ((x :: xs).foldl (fun m it => max m (it.left + it.width)) (x.left + x.width))
        - (x :: xs).foldl (fun m it => min m it.left) x.left
      height := ((x :: xs).foldl (fun m it => max m (it.top + it.height)) (x.top + x.height))
        - (x :: xs).foldl (fun m it => min m it.top) x.top
      confidence := ((x :: xs).map OCRData.confidence).sum / (x :: xs).length }

/-- The derived line blocks of a sorted fragment list. -/
def lineBlocks (sorted : List OCRData) : List OCRData :=
  (groupLines sorted).filterMap mergeLine

/-- `reconstruct_text_blocks` (from `backend/app/utils/text_utils.py`).
The Python function sorts its argument list **in place** before grouping;
that mutation is modelled by explicit state passing: the first component is
the caller's list after the call (sorted by `(top, left)` unless the input
was empty, in which case the function returns before sorting), the second
the returned derived line blocks. -/
def reconstruct_text_blocks (ocr_data : List OCRData) :
    List OCRData × List OCRData :=
  if ocr_data.isEmpty then ([], [])
  else
    let sorted := sortByTopLeft ocr_data
    (sorted, lineBlocks sorted)

/-! ## Rule engine (`backend/app/services/rule_engine.py`)

`process_label_analysis_sync` is embedded as a pure function of the OCR
fragments, the detected barcodes and the rule conditions.  The surrounding
I/O (image loading, OCR and barcode invocation, drawing, persistence) is
out of scope; the engine starts after both upstream calls have completed. -/

def PERFECT_MATCH_THRESHOLD : ℚ := 98/100

def NEAR_MATCH_THRESHOLD : ℚ := 85/100

def MINIMUM_SIMILARITY_TO_CONSIDER : ℚ := 60/100

/-- Python truthiness of an `Optional[str]`: `False` for `None` and `""`. -/
def truthyStr : Option String → Bool
  | none => false
  | some s => !s.isEmpty

/-- Python `x or d` on an `Optional[str]`. -/
def pyOrStr (o : Option String) (d : String) : String :=
  match o with
  | none => d
  | some s => if s.isEmpty then d else s

/-- Python `x or d` on an `Optional[float]`: `None` and `0.0` are falsy. -/
def pyOrQ (o : Option ℚ) (d : ℚ) : ℚ :=
  match o with
  | none => d
  | some x => if x = 0 then d else x

/-- f-string interpolation of an `Optional[str]` (`None` prints as "None"). -/
def optStr : Option String → String
  | none => "None"
  | some s => s

/-- Approximation of Python's `str()` on a float (exact for integral
values; message text only, never load-bearing). -/
def pyFloatStr (q : ℚ) : String :=
  if q.den = 1 then toString q.num ++ ".0" else toString q.num ++ "/" ++ toString q.den

/-- f-string interpolation of an `Optional[float]`. -/
def optFloatStr : Option ℚ → String
  | none => "None"
  | some q => pyFloatStr q

/-- Python `f"{x:.0%}"` percentage formatting. -/
def formatPercent (q : ℚ) : String :=
  toString (roundHalfEven (100 * q)) ++ "%"

/-- Python `f"{x:.2f}"` two-decimal formatting. -/
def format2f (q : ℚ) : String :=
  let r := roundHalfEven (100 * q)
  let a := r.natAbs
  (if r < 0 then "-" else "") ++ toString (a / 100) ++ "." ++
    (if a % 100 < 10 then "0" else "") ++ toString (a % 100)

/-- `_create_generic_fault_highlight`: a small red box in the top-left
corner for faults without a specific location. -/
def create_generic_fault_highlight (rid : String) (message : String) :
    HighlightedElement :=
  { rule_id_ref := some rid
    bounding_box := { x := 5, y := 5, width := 20, height := 20 }
    status := "wrong"
    message := message
    found_value := some "Not Found"
    expected_value := some "Varies per rule" }

/-- `f"rule_{i+1}_{condition.type.value}"`. -/
def ruleIdRef (i : Nat) (t : RuleType) : String :=
  "rule_" ++ toString (i + 1) ++ "_" ++ t.value

/-- The per-analysis accumulator: the four local variables of
`process_label_analysis_sync`. -/
structure EngineState where
  highlights : List HighlightedElement := []
  faults_without_highlights : List String := []
  matches_count : Nat := 0
  mismatches_count : Nat := 0
deriving DecidableEq, Repr

/-- One iteration of the best-match scan of the EXACT_TEXT_MATCH branch:
`if score > best_match_score` updates the pair, i.e. only a strictly
greater score replaces the current best. -/
def bestStep (expected : String) (best : ℚ × Option OCRData) (item : OCRData) :
    ℚ × Option OCRData :=
  let score := get_text_similarity expected item.text
  if best.1 < score then (score, some item) else best

/-- The best-match scan of the EXACT_TEXT_MATCH branch: fold over the
searchable items starting from `best_match_score = 0`,
`best_match_item = None`. -/
def findBestMatch (expected : String) (items : List OCRData) :
    ℚ × Option OCRData :=
  items.foldl (bestStep expected) (0, none)

/-- The EXACT_TEXT_MATCH branch for a truthy `expected_text`.  The
`best_match_item.left` accesses on a `None` item would raise
`AttributeError`; those paths are the `.error` results (carrying the state
at the raise point). -/
def evalExact (searchable : List OCRData) (rid expected : String)
    (s : EngineState) : Except EngineState EngineState :=
  let best := findBestMatch expected searchable
  if PERFECT_MATCH_THRESHOLD ≤ best.1 then
    match best.2 with
    | none => .error s
    | some it =>
      .ok { s with
        highlights := s.highlights ++ [{
          rule_id_ref := some rid
          bounding_box := { x := it.left, y := it.top, width := it.width, height := it.height }
          status := "correct"
          message := "Found expected text: '" ++ expected ++ "'"
          found_value := some it.text
          expected_value := some expected }]
        matches_count := s.matches_count + 1 }
  else if NEAR_MATCH_THRESHOLD ≤ best.1 then
    match best.2 with
    | none => .error s
    | some it =>
      .ok { s with
        highlights := s.highlights ++ [{
          rule_id_ref := some rid
          bounding_box := { x := it.left, y := it.top, width := it.width, height := it.height }
          status := "wrong"
          message := "Found text '" ++ it.text ++ "', but it's not an exact match for '"
            ++ expected ++ "'. (Similarity: " ++ formatPercent best.1 ++ ")"
          found_value := some it.text
          expected_value := some expected }]
        mismatches_count := s.mismatches_count + 1 }
  else if best.1 < MINIMUM_SIMILARITY_TO_CONSIDER then
    let fault_message := "Missing required text: '" ++ expected ++ "'"
    .ok { s with
      mismatches_count := s.mismatches_count + 1
      faults_without_highlights := s.faults_without_highlights ++ [fault_message]
      highlights := s.highlights ++ [create_generic_fault_highlight rid fault_message] }
  else
    match best.2 with
    | none => .error s
    | some it =>
      .ok { s with
        mismatches_count := s.mismatches_count + 1
        highlights := s.highlights ++ [{
          rule_id_ref := some rid
          bounding_box := { x := it.left, y := it.top, width := it.width, height := it.height }
          status := "wrong"
          message := "Found text with low similarity: '" ++ it.text ++ "' for expected text '"
            ++ expected ++ "'. (Similarity: " ++ formatPercent best.1 ++ ")"
          found_value := some it.text
          expected_value := some expected }] }

/-- One dimension check of the BARCODE_DIMENSIONS branch:
`abs(bc['measured_..._mm'] - (expected or 0)) <= (tolerance_mm or 0.5)
 if expected is not None else True`.
The `.error` case is the `KeyError` on a missing measured key. -/
def dimOk (expected measured : Option ℚ) (tol : ℚ) : Except Unit Bool :=
  match expected with
  | none => .ok true
  | some e =>
    match measured with
    | none => .error ()
    | some m => .ok (decide (|m - e| ≤ tol))

/-- The "not fully implemented" fall-through (FONT_SIZE and the other
unimplemented rule types). -/
def notImplState (s : EngineState) (c : RuleCondition) : EngineState :=
  { s with
    mismatches_count := s.mismatches_count + 1
    faults_without_highlights := s.faults_without_highlights ++
      ["Rule type '" ++ c.type.value ++ "' for '" ++ optStr c.target_element_description
        ++ "' not fully implemented."] }

/-- The BARCODE_DIMENSIONS branch. -/
def evalBarcode (detected_barcodes : List Barcode) (conds : List RuleCondition)
    (rid : String) (c : RuleCondition) (s : EngineState) :
    Except EngineState EngineState :=
  if detected_barcodes.isEmpty then
    .ok { s with
      mismatches_count := s.mismatches_count + 1
      highlights := s.highlights ++
        [create_generic_fault_highlight rid "No barcode detected on label to check dimensions."] }
  else
    let noNumber : EngineState :=
      { s with
        mismatches_count := s.mismatches_count + 1
        highlights := s.highlights ++ [create_generic_fault_highlight rid
          ("Could not find barcode number in rules for '"
            ++ optStr c.target_element_description ++ "'.")] }
    match conds.find? (fun r =>
        decide (r.type = RuleType.exact_text_match)
          && decide (r.target_element_description = c.target_element_description)) with
    | none => .ok noNumber
    | some r =>
      match r.expected_text with
      | none => .ok noNumber
      | some p =>
        if p.isEmpty then .ok noNumber
        else
          match detected_barcodes.find? (fun bc => decide (bc.data = some p)) with
          | none =>
            .ok { s with
              mismatches_count := s.mismatches_count + 1
              highlights := s.highlights ++ [create_generic_fault_highlight rid
                ("Could not find barcode with data '" ++ p ++ "' on the label.")] }
          | some bc =>
            match dimOk c.expected_width_mm bc.measured_width_mm (pyOrQ c.tolerance_mm (1/2)) with
            | .error _ => .error s
            | .ok width_ok =>
              match dimOk c.expected_height_mm bc.measured_height_mm (pyOrQ c.tolerance_mm (1/2)) with
              | .error _ => .error s
              | .ok height_ok =>
                let ok := width_ok && height_ok
                let s1 :=
                  if ok then { s with matches_count := s.matches_count + 1 }
                  else { s with mismatches_count := s.mismatches_count + 1 }
                let expectedValue := "W:" ++ optFloatStr c.expected_width_mm ++ "mm, H:"
                  ++ optFloatStr c.expected_height_mm ++ "mm"
                if ok then
                  match bc.bounding_box with
                  | none => .error s1
                  | some bb =>
                    .ok { s1 with highlights := s1.highlights ++ [{
                      rule_id_ref := some rid
                      bounding_box := bb
                      status := "correct"
                      message := "Barcode (" ++ p ++ ") dimensions are valid."
                      expected_value := some expectedValue }] }
                else
                  match bc.measured_width_mm with
                  | none => .error s1
                  | some mw =>
                    match bc.measured_height_mm with
                    | none => .error s1
                    | some mh =>
                      match bc.bounding_box with
                      | none => .error s1
                      | some bb =>
                        .ok { s1 with highlights := s1.highlights ++ [{
                          rule_id_ref := some rid
                          bounding_box := bb
                          status := "wrong"
                          message := "Barcode (" ++ p ++ ") dimensions invalid. Found: W="
                            ++ format2f mw ++ "mm, H=" ++ format2f mh ++ "mm"
                          expected_value := some expectedValue }] }

/-- The body of the `try:` block for one condition (before the
`except Exception` handler). -/
def evalCondition (searchable : List OCRData) (detected_barcodes : List Barcode)
    (conds : List RuleCondition) (i : Nat) (c : RuleCondition) (s : EngineState) :
    Except EngineState EngineState :=
  let rid := ruleIdRef i c.type
  match c.type with
  | .exact_text_match =>
    match c.expected_text with
    | none => .ok s
    | some expected =>
      if expected.isEmpty then .ok s
      else evalExact searchable rid expected s
  | .font_size => .ok (notImplState s c)
  | .barcode_dimensions => evalBarcode detected_barcodes conds rid c s
  | .spacing => .ok (notImplState s c)
  | .element_presence => .ok (notImplState s c)
  | .translation_match => .ok (notImplState s c)

/-- One loop iteration of `process_label_analysis_sync`, including the
`except Exception` handler: a raised exception is downgraded to a mismatch
plus a fault-log entry on top of the state reached at the raise point. -/
def processCondition (searchable : List OCRData) (detected_barcodes : List Barcode)
    (conds : List RuleCondition) (i : Nat) (c : RuleCondition) (s : EngineState) :
    EngineState :=
  match evalCondition searchable detected_barcodes conds i c s with
  | .ok s' => s'
  | .error s' =>
    { s' with
      mismatches_count := s'.mismatches_count + 1
      faults_without_highlights := s'.faults_without_highlights ++
        ["Failed to process rule for '"
          ++ pyOrStr c.target_element_description "Unknown Target" ++ "'."] }

/-- The `for i, condition in enumerate(ruleset.conditions)` loop. -/
def runConditions (searchable : List OCRData) (detected_barcodes : List Barcode)
    (conds : List RuleCondition) : EngineState :=
  conds.enum.foldl
    (fun s ic => processCondition searchable detected_barcodes conds ic.1 ic.2 s) {}

/-- `searchable_text_items = all_ocr_data + reconstructed_text_blocks`,
where `all_ocr_data` is the list *after* the in-place sort performed by
`reconstruct_text_blocks`. -/
def searchable_text_items (all_ocr_data : List OCRData) : List OCRData :=
  let r := reconstruct_text_blocks all_ocr_data
  r.1 ++ r.2

/-- The pure content of `LabelAnalysisResult` (identifiers, timestamp and
the processed-image URL are I/O concerns and out of scope).  The summary
dictionary is flattened into its four entries; `summary_matches` models the
summary key `"matches"` (`matches` is a Lean keyword). -/
structure LabelAnalysisResult where
  overall_status : String
  total_rules_defined : Nat
  summary_matches : Nat
  mismatches_or_errors_in_rules : Nat
  faults_without_highlights : List String
  highlights : List HighlightedElement
deriving DecidableEq, Repr

/-- `process_label_analysis_sync` (from
`backend/app/services/rule_engine.py`): evaluate every condition, then
aggregate counters into the final result. -/
def process_label_analysis_sync (all_ocr_data : List OCRData)
    (detected_barcodes : List Barcode) (conditions : List RuleCondition) :
    LabelAnalysisResult :=
  let s := runConditions (searchable_text_items all_ocr_data) detected_barcodes conditions
  { overall_status := if s.mismatches_count = 0 then "pass" else "fail_minor"
    total_rules_defined := conditions.length
    summary_matches := s.matches_count
    mismatches_or_errors_in_rules := s.mismatches_count
    faults_without_highlights := s.faults_without_highlights
    highlights := s.highlights }

/-! ## Helper lemmas about the best-match scan -/

/-- The maximum similarity score over the candidate pool, floored at the
initial `best_match_score = 0`. -/
def maxScore (expected : String) (items : List OCRData) : ℚ :=
  items.foldl (fun m it => max m (get_text_similarity expected it.text)) 0

lemma le_foldl_max (expected : String) :
    ∀ (items : List OCRData) (b : ℚ),
      b ≤ items.foldl (fun m it => max m (get_text_similarity expected it.text)) b
  | [], _ => le_refl _
  | it :: rest, b => by
    simpa using le_trans (le_max_left b (get_text_similarity expected it.text))
      (le_foldl_max expected rest _)

lemma score_le_foldl_max (expected : String) (items : List OCRData) (b : ℚ)
    (it : OCRData) (h : it ∈ items) :
    get_text_similarity expected it.text ≤
      items.foldl (fun m i => max m (get_text_similarity expected i.text)) b := by
  induction items generalizing b with
  | nil => cases h
  | cons x rest ih =>
    rcases List.mem_cons.mp h with rfl | hr
    · simpa using le_trans (le_max_right b (get_text_similarity expected it.text))
        (le_foldl_max expected rest _)
    · simpa using ih _ hr

lemma foldl_max_attained (expected : String) :
    ∀ (items : List OCRData) (b : ℚ),
      items.foldl (fun m i => max m (get_text_similarity expected i.text)) b = b
      ∨ ∃ it ∈ items,
          items.foldl (fun m i => max m (get_text_similarity expected i.text)) b
            = get_text_similarity expected it.text
  | [], _ => Or.inl rfl
  | x :: rest, b => by
    simp only [List.foldl_cons]
    rcases foldl_max_attained expected rest (max b (get_text_similarity expected x.text)) with h | ⟨it, hm, he⟩
    · rcases max_choice b (get_text_similarity expected x.text) with hb | hb
      · exact Or.inl (by rw [h, hb])
      · exact Or.inr ⟨x, List.mem_cons_self .., by rw [h, hb]⟩
    · exact Or.inr ⟨it, List.mem_cons_of_mem _ hm, he⟩

lemma findBestAux_fst (expected : String) :
    ∀ (items : List OCRData) (b : ℚ) (o : Option OCRData),
      (items.foldl (bestStep expected) (b, o)).1
        = items.foldl (fun m i => max m (get_text_similarity expected i.text)) b := by
  intro items
  induction items with
  | nil => intro b o; rfl
  | cons x rest ih =>
    intro b o
    simp only [List.foldl_cons, bestStep]
    by_cases h : b < get_text_similarity expected x.text
    · rw [if_pos h, ih, max_eq_right h.le]
    · rw [if_neg h, ih, max_eq_left (not_lt.mp h)]

lemma findBestAux_snd (expected : String) :
    ∀ (items : List OCRData) (b : ℚ) (o : Option OCRData),
      (items.foldl (bestStep expected) (b, o)).2
        = if b < items.foldl (fun m i => max m (get_text_similarity expected i.text)) b then
            items.find? (fun i =>
              decide (items.foldl (fun m j => max m (get_text_similarity expected j.text)) b
                ≤ get_text_similarity expected i.text))
          else o := by
  intro items
  induction items with
  | nil => intro b o; simp
  | cons x rest ih =>
    intro b o
    simp only [List.foldl_cons, bestStep]
    by_cases h : b < get_text_similarity expected x.text
    · rw [if_pos h]
      rw [ih (get_text_similarity expected x.text) (some x)]
      have hM : max b (get_text_similarity expected x.text) = get_text_similarity expected x.text :=
        max_eq_right h.le
      simp only [hM]
      have hle := le_foldl_max expected rest (get_text_similarity expected x.text)
      by_cases hx : get_text_similarity expected x.text
          < rest.foldl (fun m i => max m (get_text_similarity expected i.text))
              (get_text_similarity expected x.text)
      · rw [if_pos hx, if_pos (lt_trans h hx)]
        rw [List.find?_cons]
        have hnot : ¬ (rest.foldl (fun m j => max m (get_text_similarity expected j.text))
            (get_text_similarity expected x.text) ≤ get_text_similarity expected x.text) :=
          not_le.mpr hx
        simp [decide_eq_false hnot]
      · have hEq : rest.foldl (fun m i => max m (get_text_similarity expected i.text))
            (get_text_similarity expected x.text) = get_text_similarity expected x.text :=
          le_antisymm (not_lt.mp hx) hle
        rw [if_neg hx]
        simp only [hEq]
        rw [if_pos h, List.find?_cons]
        simp
    · rw [if_neg h]
      rw [ih b o]
      have hM : max b (get_text_similarity expected x.text) = b :=
        max_eq_left (not_lt.mp h)
      simp only [hM]
      by_cases hb : b < rest.foldl (fun m i => max m (get_text_similarity expected i.text)) b
      · rw [if_pos hb, if_pos hb]
        rw [List.find?_cons]
        have hnot : ¬ (rest.foldl (fun m j => max m (get_text_similarity expected j.text)) b
            ≤ get_text_similarity expected x.text) :=
          not_le.mpr (lt_of_le_of_lt (not_lt.mp h) hb)
        simp [decide_eq_false hnot]
      · rw [if_neg hb, if_neg hb]

lemma findBestMatch_fst (expected : String) (items : List OCRData) :
    (findBestMatch expected items).1 = maxScore expected items :=
  findBestAux_fst expected items 0 none

lemma findBestMatch_snd (expected : String) (items : List OCRData) :
    (findBestMatch expected items).2
      = if 0 < maxScore expected items then
          items.find? (fun i =>
            decide (maxScore expected items ≤ get_text_similarity expected i.text))
        else none :=
  findBestAux_snd expected items 0 none

lemma findBestMatch_isSome (expected : String) (items : List OCRData)
    (h : 0 < maxScore expected items) :
    ∃ it, (findBestMatch expected items).2 = some it := by
  rw [findBestMatch_snd, if_pos h]
  rcases foldl_max_attained expected items 0 with h0 | ⟨it, hm, he⟩
  · have hz : maxScore expected items = 0 := by simpa [maxScore] using h0
    rw [hz] at h
    exact absurd h (lt_irrefl 0)
  · have : (items.find? (fun i =>
        decide (maxScore expected items ≤ get_text_similarity expected i.text))).isSome := by
      rw [List.find?_isSome]
      exact ⟨it, hm, by simp [maxScore] at he ⊢; rw [he]⟩
    rcases Option.isSome_iff_exists.mp this with ⟨it', hit⟩
    exact ⟨it', hit⟩

/-! ## Claim theorems -/

/-- C4: for every completed evaluation run, `overall_status` is `"pass"`
iff the mismatch counter is 0 and `"fail_minor"` otherwise; the aggregation
step never produces `"fail_critical"` or `"processing_error"`. -/
theorem claim_C4 (all_ocr_data : List OCRData) (detected_barcodes : List Barcode)
    (conditions : List RuleCondition) :
    ((process_label_analysis_sync all_ocr_data detected_barcodes conditions).overall_status
        = "pass"
      ↔ (process_label_analysis_sync all_ocr_data detected_barcodes
          conditions).mismatches_or_errors_in_rules = 0)
  ∧ ((process_label_analysis_sync all_ocr_data detected_barcodes conditions).overall_status
        = "pass"
      ∨ (process_label_analysis_sync all_ocr_data detected_barcodes conditions).overall_status
        = "fail_minor") := by
  simp only [process_label_analysis_sync]
  by_cases h : (runConditions (searchable_text_items all_ocr_data) detected_barcodes
      conditions).mismatches_count = 0
  · simp [h]
  · simp [h]

/-- C4 witness: the aggregation property at the empty concrete input. -/
theorem claim_C4_witness :
    ((process_label_analysis_sync [] [] []).overall_status = "pass"
      ↔ (process_label_analysis_sync [] [] []).mismatches_or_errors_in_rules = 0)
  ∧ ((process_label_analysis_sync [] [] []).overall_status = "pass"
      ∨ (process_label_analysis_sync [] [] []).overall_status = "fail_minor") :=
  claim_C4 [] [] []

/-- C7: whenever either argument is empty, `get_text_similarity_ratio`
returns exactly 0.0 (the guard fires before any division). -/
theorem claim_C7 (text1 text2 : String) (h : text1 = "" ∨ text2 = "") :
    get_text_similarity text1 text2 = 0 := by
  rcases h with rfl | rfl <;>
    simp [get_text_similarity, show ("" : String).isEmpty = true from rfl]

/-- C7 witness: the empty-side guard at a concrete input. -/
theorem claim_C7_witness :
    (("" : String) = "" ∨ ("x" : String) = "") ∧ get_text_similarity "" "x" = 0 :=
  ⟨Or.inl rfl, claim_C7 "" "x" (Or.inl rfl)⟩

/-- C9: `rule_id_ref` is the deterministic 1-based
`"rule_<index+1>_<type>"` string, the best-match scan computes the maximum
similarity over the pool, and ties are broken in favour of the first
candidate in pool order (a later candidate replaces the current best only
on a strictly greater score, so the selected item is the first one
attaining the maximum). -/
theorem claim_C9 :
    (∀ (i : Nat) (t : RuleType),
      ruleIdRef i t = "rule_" ++ toString (i + 1) ++ "_" ++ t.value)
  ∧ (∀ (expected : String) (items : List OCRData),
      (findBestMatch expected items).1 = maxScore expected items)
  ∧ (∀ (expected : String) (items : List OCRData),
      (findBestMatch expected items).2
        = if 0 < maxScore expected items then
            items.find? (fun it =>
              decide (maxScore expected items ≤ get_text_similarity expected it.text))
          else none) :=
  ⟨fun _ _ => rfl, findBestMatch_fst, findBestMatch_snd⟩

/-- C8: an exception inside the evaluation of one condition is caught and
folded into the accumulator (mismatch counter incremented, fault-log entry
appended, state at the raise point otherwise preserved), and the engine
always returns a complete result whose summary covers every condition,
with a non-erroring overall status. -/
theorem claim_C8 :
    (∀ (searchable : List OCRData) (detected_barcodes : List Barcode)
        (conds : List RuleCondition) (i : Nat) (c : RuleCondition) (s s' : EngineState),
      evalCondition searchable detected_barcodes conds i c s = Except.error s' →
      processCondition searchable detected_barcodes conds i c s =
        { s' with
          mismatches_count := s'.mismatches_count + 1
          faults_without_highlights := s'.faults_without_highlights ++
            ["Failed to process rule for '"
              ++ pyOrStr c.target_element_description "Unknown Target" ++ "'."] })
  ∧ (∀ (all_ocr_data : List OCRData) (detected_barcodes : List Barcode)
        (conditions : List RuleCondition),
      (process_label_analysis_sync all_ocr_data detected_barcodes
          conditions).total_rules_defined = conditions.length
      ∧ ((process_label_analysis_sync all_ocr_data detected_barcodes
            conditions).overall_status = "pass"
        ∨ (process_label_analysis_sync all_ocr_data detected_barcodes
            conditions).overall_status = "fail_minor")) := by
  constructor
  · intro searchable detected_barcodes conds i c s s' h
    simp [processCondition, h]
  · intro all_ocr_data detected_barcodes conditions
    refine ⟨rfl, ?_⟩
    simp only [process_label_analysis_sync]
    by_cases h : (runConditions (searchable_text_items all_ocr_data) detected_barcodes
        conditions).mismatches_count = 0
    · simp [h]
    · simp [h]

/-- A condition pair for a barcode-dimension check whose matching barcode
dictionary lacks the `measured_width_mm` key (a `KeyError` source). -/
def c8_text_rule : RuleCondition :=
  { type := RuleType.exact_text_match, target_element_description := some "BC1",
    expected_text := some "012345" }

def c8_dim_rule : RuleCondition :=
  { type := RuleType.barcode_dimensions, target_element_description := some "BC1",
    expected_width_mm := some 30, tolerance_mm := some (1/2) }

def c8_barcode : Barcode :=
  { data := some "012345", bounding_box := some { x := 1, y := 2, width := 3, height := 4 },
    measured_height_mm := some 20 }

/-- C8 witness: a concrete raising condition (missing `measured_width_mm`
key) is downgraded to a mismatch plus a fault-log entry. -/
theorem claim_C8_witness :
    evalCondition [] [c8_barcode] [c8_text_rule, c8_dim_rule] 1 c8_dim_rule {}
      = Except.error {}
  ∧ processCondition [] [c8_barcode] [c8_text_rule, c8_dim_rule] 1 c8_dim_rule {}
      = { faults_without_highlights := ["Failed to process rule for 'BC1'."],
          mismatches_count := 1 } := by
  have herr : evalCondition [] [c8_barcode] [c8_text_rule, c8_dim_rule] 1 c8_dim_rule {}
      = Except.error {} := by with_unfolding_all rfl
  refine ⟨herr, ?_⟩
  have h := claim_C8.1 [] [c8_barcode] [c8_text_rule, c8_dim_rule] 1 c8_dim_rule {} {} herr
  exact h.trans (by with_unfolding_all rfl)

/-- C10: `reconstruct_text_blocks` sorts the caller's list in place by
`(top, left)` before grouping (modelled by returning the mutated list), so
the engine's searchable pool is the reordered fragments followed by the
derived line blocks — demonstrated to differ from the original OCR order
on a concrete out-of-order input. -/
theorem claim_C10 :
    (∀ ocr_data : List OCRData,
      (reconstruct_text_blocks ocr_data).1 = sortByTopLeft ocr_data)
  ∧ (∀ all_ocr_data : List OCRData,
      searchable_text_items all_ocr_data
        = sortByTopLeft all_ocr_data ++ (reconstruct_text_blocks all_ocr_data).2)
  ∧ searchable_text_items
      [{ text := "below", left := 0, top := 100, width := 10, height := 10, confidence := 1 },
       { text := "above", left := 0, top := 0, width := 10, height := 10, confidence := 1 }]
    ≠ [{ text := "below", left := 0, top := 100, width := 10, height := 10, confidence := 1 },
       { text := "above", left := 0, top := 0, width := 10, height := 10, confidence := 1 }]
      ++ (reconstruct_text_blocks
        [{ text := "below", left := 0, top := 100, width := 10, height := 10, confidence := 1 },
         { text := "above", left := 0, top := 0, width := 10, height := 10, confidence := 1 }]).2 := by
  have h1 : ∀ ocr_data : List OCRData,
      (reconstruct_text_blocks ocr_data).1 = sortByTopLeft ocr_data := by
    intro l
    by_cases h : l.isEmpty
    · rw [List.isEmpty_iff] at h
      subst h
      simp [reconstruct_text_blocks, sortByTopLeft, stableSort]
    · simp [reconstruct_text_blocks, h]
  refine ⟨h1, ?_, by with_unfolding_all decide⟩
  intro l
  simp only [searchable_text_items, h1 l]

/-- C2 counterexample: with `case_sensitive = True`, expected text `"ABC"`
and sole candidate `"abc"` (same letters, different case), the similarity
clears the perfect threshold and the engine emits status `"correct"` and a
match — the verdict does **not** degrade to `"wrong"` as the claim
states. -/
theorem claim_C2_counterexample :
    (({ type := RuleType.exact_text_match, expected_text := some "ABC",
        case_sensitive := some true } : RuleCondition).case_sensitive = some true)
  ∧ get_text_similarity "ABC" "abc" = 1
  ∧ "ABC" ≠ "abc"
  ∧ (processCondition
      (searchable_text_items
        [{ text := "abc", left := 0, top := 0, width := 10, height := 10, confidence := 9/10 }])
      [] [{ type := RuleType.exact_text_match, expected_text := some "ABC",
            case_sensitive := some true }] 0
      { type := RuleType.exact_text_match, expected_text := some "ABC",
        case_sensitive := some true } {}).highlights.map HighlightedElement.status
      = ["correct"]
  ∧ (processCondition
      (searchable_text_items
        [{ text := "abc", left := 0, top := 0, width := 10, height := 10, confidence := 9/10 }])
      [] [{ type := RuleType.exact_text_match, expected_text := some "ABC",
            case_sensitive := some true }] 0
      { type := RuleType.exact_text_match, expected_text := some "ABC",
        case_sensitive := some true } {}).matches_count = 1 := by
  with_unfolding_all decide

/-- C2 (amended): the `case_sensitive` flag has no effect on evaluation —
the engine never reads it, so every verdict (including a perfect-threshold
`"correct"` on a candidate differing only in letter case) is invariant
under the flag. -/
theorem claim_C2_amended (searchable : List OCRData) (detected_barcodes : List Barcode)
    (conds : List RuleCondition) (i : Nat) (c : RuleCondition) (b : Option Bool)
    (s : EngineState) :
    processCondition searchable detected_barcodes conds i
        { c with case_sensitive := b } s
      = processCondition searchable detected_barcodes conds i c s := by
  rcases c with ⟨t, desc, et, cs, ew, eh, tol⟩
  cases t <;> rfl

/-- C3 counterexample: a FONT_SIZE condition whose
`target_element_description` text occurs verbatim in the candidate pool
still increments the mismatch counter and emits **no** highlight (no
`info` status), contrary to the claim. -/
theorem claim_C3_counterexample :
    (∃ it ∈ searchable_text_items
        [{ text := "abc", left := 0, top := 0, width := 10, height := 10, confidence := 9/10 }],
      it.text = "abc")
  ∧ (processCondition
      (searchable_text_items
        [{ text := "abc", left := 0, top := 0, width := 10, height := 10, confidence := 9/10 }])
      [] [{ type := RuleType.font_size, target_element_description := some "abc" }] 0
      { type := RuleType.font_size, target_element_description := some "abc" }
      {}).mismatches_count = 1
  ∧ (processCondition
      (searchable_text_items
        [{ text := "abc", left := 0, top := 0, width := 10, height := 10, confidence := 9/10 }])
      [] [{ type := RuleType.font_size, target_element_description := some "abc" }] 0
      { type := RuleType.font_size, target_element_description := some "abc" }
      {}).highlights = [] := by
  with_unfolding_all decide

/-- C3 (amended): every FONT_SIZE condition — regardless of whether any
candidate matches `target_element_description` — increments the mismatch
counter and appends a "not fully implemented" fault-log entry, emitting no
highlight. -/
theorem claim_C3_amended (searchable : List OCRData) (detected_barcodes : List Barcode)
    (conds : List RuleCondition) (i : Nat) (c : RuleCondition) (s : EngineState)
    (h : c.type = RuleType.font_size) :
    processCondition searchable detected_barcodes conds i c s =
      { s with
        mismatches_count := s.mismatches_count + 1
        faults_without_highlights := s.faults_without_highlights ++
          ["Rule type 'font_size' for '" ++ optStr c.target_element_description
            ++ "' not fully implemented."] } := by
  rcases c with ⟨t, desc, et, cs, ew, eh, tol⟩
  simp only [RuleCondition.type] at h
  subst h
  rfl

/-- C3 witness: the amended FONT_SIZE behaviour at a concrete input. -/
theorem claim_C3_witness :
    (({ type := RuleType.font_size, target_element_description := some "abc" }
        : RuleCondition).type = RuleType.font_size)
  ∧ processCondition [] []
      [{ type := RuleType.font_size, target_element_description := some "abc" }] 0
      { type := RuleType.font_size, target_element_description := some "abc" } {}
      = { faults_without_highlights :=
            ["Rule type 'font_size' for 'abc' not fully implemented."],
          mismatches_count := 1 } := by
  refine ⟨rfl, ?_⟩
  have h := claim_C3_amended [] []
    [{ type := RuleType.font_size, target_element_description := some "abc" }] 0
    { type := RuleType.font_size, target_element_description := some "abc" } {} rfl
  exact h.trans (by rfl)

/-- C1: for every EXACT_TEXT_MATCH condition with non-empty
`expected_text`, the engine scores every candidate of the pool (sorted raw
fragments plus reconstructed line blocks), keeps the best score, and emits
exactly one verdict by four tiers — `correct` + match at ≥ 0.98, `wrong`
at the best candidate's box + mismatch in [0.85, 0.98), `wrong` at the
sentinel box (5,5,20,20) + fault-log entry + mismatch below 0.60, and
`wrong` with a low-similarity message + mismatch in [0.60, 0.85); a
condition with empty or absent `expected_text` emits no verdict and
changes no counter. -/
theorem claim_C1 (all_ocr_data : List OCRData) (detected_barcodes : List Barcode)
    (conds : List RuleCondition) (i : Nat) (c : RuleCondition) (s : EngineState)
    (pool : List OCRData) (hpool : pool = searchable_text_items all_ocr_data)
    (htype : c.type = RuleType.exact_text_match) :
    ((c.expected_text = none ∨ c.expected_text = some "") →
      processCondition pool detected_barcodes conds i c s = s)
  ∧ (∀ expected : String, c.expected_text = some expected → expected ≠ "" →
      ((findBestMatch expected pool).1 = maxScore expected pool
        ∧ ∀ it ∈ pool,
            get_text_similarity expected it.text ≤ (findBestMatch expected pool).1)
      ∧ (PERFECT_MATCH_THRESHOLD ≤ (findBestMatch expected pool).1 →
          ∃ it, (findBestMatch expected pool).2 = some it
            ∧ processCondition pool detected_barcodes conds i c s
              = { s with
                  highlights := s.highlights ++ [{
                    rule_id_ref := some (ruleIdRef i RuleType.exact_text_match)
                    bounding_box := { x := it.left, y := it.top,
                                      width := it.width, height := it.height }
                    status := "correct"
                    message := "Found expected text: '" ++ expected ++ "'"
                    found_value := some it.text
                    expected_value := some expected }]
                  matches_count := s.matches_count + 1 })
      ∧ (NEAR_MATCH_THRESHOLD ≤ (findBestMatch expected pool).1 →
          (findBestMatch expected pool).1 < PERFECT_MATCH_THRESHOLD →
          ∃ it, (findBestMatch expected pool).2 = some it
            ∧ processCondition pool detected_barcodes conds i c s
              = { s with
                  highlights := s.highlights ++ [{
                    rule_id_ref := some (ruleIdRef i RuleType.exact_text_match)
                    bounding_box := { x := it.left, y := it.top,
                                      width := it.width, height := it.height }
                    status := "wrong"
                    message := "Found text '" ++ it.text
                      ++ "', but it's not an exact match for '" ++ expected
                      ++ "'. (Similarity: "
                      ++ formatPercent (findBestMatch expected pool).1 ++ ")"
                    found_value := some it.text
                    expected_value := some expected }]
                  mismatches_count := s.mismatches_count + 1 })
      ∧ ((findBestMatch expected pool).1 < MINIMUM_SIMILARITY_TO_CONSIDER →
          processCondition pool detected_barcodes conds i c s
            = { s with
                mismatches_count := s.mismatches_count + 1
                faults_without_highlights := s.faults_without_highlights ++
                  ["Missing required text: '" ++ expected ++ "'"]
                highlights := s.highlights ++ [{
                  rule_id_ref := some (ruleIdRef i RuleType.exact_text_match)
                  bounding_box := { x := 5, y := 5, width := 20, height := 20 }
                  status := "wrong"
                  message := "Missing required text: '" ++ expected ++ "'"
                  found_value := some "Not Found"
                  expected_value := some "Varies per rule" }] })
      ∧ (MINIMUM_SIMILARITY_TO_CONSIDER ≤ (findBestMatch expected pool).1 →
          (findBestMatch expected pool).1 < NEAR_MATCH_THRESHOLD →
          ∃ it, (findBestMatch expected pool).2 = some it
            ∧ processCondition pool detected_barcodes conds i c s
              = { s with
                  mismatches_count := s.mismatches_count + 1
                  highlights := s.highlights ++ [{
                    rule_id_ref := some (ruleIdRef i RuleType.exact_text_match)
                    bounding_box := { x := it.left, y := it.top,
                                      width := it.width, height := it.height }
                    status := "wrong"
                    message := "Found text with low similarity: '" ++ it.text
                      ++ "' for expected text '" ++ expected
                      ++ "'. (Similarity: "
                      ++ formatPercent (findBestMatch expected pool).1 ++ ")"
                    found_value := some it.text
                    expected_value := some expected }] })) := by
  rcases c with ⟨t, desc, et, cs, ew, eh, tol⟩
  obtain rfl : t = RuleType.exact_text_match := htype
  constructor
  · rintro (h | h) <;> (obtain rfl : et = _ := h) <;> rfl
  · intro expected het hne
    obtain rfl : et = some expected := het
    have hemp : expected.isEmpty = false := by
      cases hb : expected.isEmpty
      · rfl
      · exact absurd ((String.isEmpty_iff expected).mp hb) hne
    have hpc : processCondition pool detected_barcodes conds i
        ⟨RuleType.exact_text_match, desc, some expected, cs, ew, eh, tol⟩ s
        = match evalExact pool (ruleIdRef i RuleType.exact_text_match) expected s with
          | .ok s' => s'
          | .error s' =>
            { s' with
              mismatches_count := s'.mismatches_count + 1
              faults_without_highlights := s'.faults_without_highlights ++
                ["Failed to process rule for '"
                  ++ pyOrStr desc "Unknown Target" ++ "'."] } := by
      simp [processCondition, evalCondition, hemp, pyOrStr]
    refine ⟨⟨findBestMatch_fst expected pool, ?_⟩, ?_, ?_, ?_, ?_⟩
    · intro it hit
      rw [findBestMatch_fst]
      exact score_le_foldl_max expected pool 0 it hit
    · intro hperf
      have h0 : 0 < maxScore expected pool := by
        rw [← findBestMatch_fst]
        exact lt_of_lt_of_le (by norm_num [PERFECT_MATCH_THRESHOLD]) hperf
      obtain ⟨it, hit⟩ := findBestMatch_isSome expected pool h0
      refine ⟨it, hit, ?_⟩
      rw [hpc]
      simp only [evalExact, if_pos hperf, hit]
    · intro hnear hlt
      have h0 : 0 < maxScore expected pool := by
        rw [← findBestMatch_fst]
        exact lt_of_lt_of_le (by norm_num [NEAR_MATCH_THRESHOLD]) hnear
      obtain ⟨it, hit⟩ := findBestMatch_isSome expected pool h0
      refine ⟨it, hit, ?_⟩
      rw [hpc]
      simp only [evalExact, if_neg (not_le.mpr hlt), if_pos hnear, hit]
    · intro hmin
      rw [hpc]
      have hn1 : ¬ PERFECT_MATCH_THRESHOLD ≤ (findBestMatch expected pool).1 :=
        not_le.mpr (lt_trans hmin (by
          norm_num [MINIMUM_SIMILARITY_TO_CONSIDER, PERFECT_MATCH_THRESHOLD]))
      have hn2 : ¬ NEAR_MATCH_THRESHOLD ≤ (findBestMatch expected pool).1 :=
        not_le.mpr (lt_trans hmin (by
          norm_num [MINIMUM_SIMILARITY_TO_CONSIDER, NEAR_MATCH_THRESHOLD]))
      simp only [evalExact, if_neg hn1, if_neg hn2, if_pos hmin,
        create_generic_fault_highlight]
    · intro hge hlt
      have h0 : 0 < maxScore expected pool := by
        rw [← findBestMatch_fst]
        exact lt_of_lt_of_le (by norm_num [MINIMUM_SIMILARITY_TO_CONSIDER]) hge
      obtain ⟨it, hit⟩ := findBestMatch_isSome expected pool h0
      refine ⟨it, hit, ?_⟩
      rw [hpc]
      have hn1 : ¬ PERFECT_MATCH_THRESHOLD ≤ (findBestMatch expected pool).1 :=
        not_le.mpr (lt_trans hlt (by
          norm_num [NEAR_MATCH_THRESHOLD, PERFECT_MATCH_THRESHOLD]))
      simp only [evalExact, if_neg hn1, if_neg (not_le.mpr hlt),
        if_neg (not_lt.mpr hge), hit]

/-- A single-fragment candidate pool for the C1 witness. -/
def c1_frag : OCRData :=
  { text := "hello", left := 1, top := 2, width := 30, height := 10, confidence := 9/10 }

def c1_rule : RuleCondition :=
  { type := RuleType.exact_text_match, expected_text := some "hello" }

/-- C1 witness: best-score bookkeeping of the EXACT_TEXT_MATCH scan at a
concrete input. -/
theorem claim_C1_witness :
    (c1_rule.type = RuleType.exact_text_match)
  ∧ ("hello" : String) ≠ ""
  ∧ ((findBestMatch "hello" (searchable_text_items [c1_frag])).1
        = maxScore "hello" (searchable_text_items [c1_frag])
      ∧ ∀ it ∈ searchable_text_items [c1_frag],
          get_text_similarity "hello" it.text
            ≤ (findBestMatch "hello" (searchable_text_items [c1_frag])).1) :=
  ⟨rfl, by decide,
    ((claim_C1 [c1_frag] [] [c1_rule] 0 c1_rule {} _ rfl rfl).2 "hello" rfl
      (by decide)).1⟩

/-- Companion text rule supplying the barcode payload for the C5 runs. -/
def c5_text_rule : RuleCondition :=
  { type := RuleType.exact_text_match, target_element_description := some "BC1",
    expected_text := some "012345" }

/-- Barcode-dimension rule with the default 0.5mm tolerance. -/
def c5_dim_rule : RuleCondition :=
  { type := RuleType.barcode_dimensions, target_element_description := some "BC1",
    expected_width_mm := some 30, tolerance_mm := some (1/2) }

/-- Barcode-dimension rule with an explicit zero tolerance. -/
def c5_dim_rule_tol0 : RuleCondition :=
  { type := RuleType.barcode_dimensions, target_element_description := some "BC1",
    expected_width_mm := some 30, tolerance_mm := some 0 }

/-- A detected barcode with payload `"012345"` and the given measured
width. -/
def c5_barcode (w : ℚ) : Barcode :=
  { data := some "012345", bounding_box := some { x := 1, y := 2, width := 3, height := 4 },
    measured_width_mm := some w, measured_height_mm := some 20 }

/-- C5 counterexample: with a declared `tolerance_mm = 0.0` and measured
width 30.3mm against expected 30.0mm, the deviation exceeds the declared
tolerance, yet the engine reports `correct` and a match — Python's
`tolerance_mm or 0.5` replaces a present-but-zero tolerance by 0.5, so the
claim's "defaulting to 0.5 when absent" reading fails. -/
theorem claim_C5_counterexample :
    c5_dim_rule_tol0.tolerance_mm = some 0
  ∧ ¬ (|((303:ℚ)/10) - 30| ≤ 0)
  ∧ (processCondition [] [c5_barcode (303/10)] [c5_text_rule, c5_dim_rule_tol0] 1
      c5_dim_rule_tol0 {}).highlights.map HighlightedElement.status = ["correct"]
  ∧ (processCondition [] [c5_barcode (303/10)] [c5_text_rule, c5_dim_rule_tol0] 1
      c5_dim_rule_tol0 {}).matches_count = 1 := by
  with_unfolding_all decide

/-- The dimension-acceptance test of the BARCODE_DIMENSIONS branch, as a
Bool of the rule bound, the measured value and the effective tolerance: an
absent expected bound is satisfied, a present one requires
`|measured - expected| <= tolerance` (inclusive). -/
def specDimOk (expected : Option ℚ) (measured tol : ℚ) : Bool :=
  match expected with
  | none => true
  | some e => decide (|measured - e| ≤ tol)

lemma dimOk_some (e : Option ℚ) (m tol : ℚ) :
    dimOk e (some m) tol = .ok (specDimOk e m tol) := by
  cases e <;> rfl

/-- C5 (amended): for every BARCODE_DIMENSIONS condition that resolves to
a detected barcode with matching payload (and whose barcode dictionary
carries both measured keys and a bounding box), each declared dimension is
accepted when `|measured - expected| ≤ tolerance`, where the effective
tolerance is `tolerance_mm` defaulting to 0.5 when absent **or zero**
(Python `or`); an absent expected bound counts as satisfied; both
dimensions in tolerance give `correct` + match, otherwise `wrong` +
mismatch, with one highlight at the barcode's real bounding box either
way; the comparison is inclusive at exactly the tolerance (29.6 and the
boundary 29.5 are `correct` against 30.0 ± 0.5, while 29.4 is `wrong`). -/
theorem claim_C5_amended (searchable : List OCRData) (detected_barcodes : List Barcode)
    (conds : List RuleCondition) (i : Nat) (c : RuleCondition) (s : EngineState)
    (r : RuleCondition) (p : String) (bc : Barcode) (mw mh : ℚ) (bb : BoundingBox)
    (htype : c.type = RuleType.barcode_dimensions)
    (hne : detected_barcodes.isEmpty = false)
    (hfind : conds.find? (fun r => decide (r.type = RuleType.exact_text_match)
        && decide (r.target_element_description = c.target_element_description)) = some r)
    (hp : r.expected_text = some p) (hpne : p ≠ "")
    (hbc : detected_barcodes.find? (fun bc => decide (bc.data = some p)) = some bc)
    (hmw : bc.measured_width_mm = some mw) (hmh : bc.measured_height_mm = some mh)
    (hbb : bc.bounding_box = some bb) :
    ((specDimOk c.expected_width_mm mw (pyOrQ c.tolerance_mm (1/2))
        && specDimOk c.expected_height_mm mh (pyOrQ c.tolerance_mm (1/2))) = true →
      processCondition searchable detected_barcodes conds i c s
        = { s with
            matches_count := s.matches_count + 1
            highlights := s.highlights ++ [{
              rule_id_ref := some (ruleIdRef i RuleType.barcode_dimensions)
              bounding_box := bb
              status := "correct"
              message := "Barcode (" ++ p ++ ") dimensions are valid."
              expected_value := some ("W:" ++ optFloatStr c.expected_width_mm
                ++ "mm, H:" ++ optFloatStr c.expected_height_mm ++ "mm") }] })
  ∧ ((specDimOk c.expected_width_mm mw (pyOrQ c.tolerance_mm (1/2))
        && specDimOk c.expected_height_mm mh (pyOrQ c.tolerance_mm (1/2))) = false →
      processCondition searchable detected_barcodes conds i c s
        = { s with
            mismatches_count := s.mismatches_count + 1
            highlights := s.highlights ++ [{
              rule_id_ref := some (ruleIdRef i RuleType.barcode_dimensions)
              bounding_box := bb
              status := "wrong"
              message := "Barcode (" ++ p ++ ") dimensions invalid. Found: W="
                ++ format2f mw ++ "mm, H=" ++ format2f mh ++ "mm"
              expected_value := some ("W:" ++ optFloatStr c.expected_width_mm
                ++ "mm, H:" ++ optFloatStr c.expected_height_mm ++ "mm") }] })
  ∧ (processCondition [] [c5_barcode (296/10)] [c5_text_rule, c5_dim_rule] 1
      c5_dim_rule {}).highlights.map HighlightedElement.status = ["correct"]
  ∧ (processCondition [] [c5_barcode (295/10)] [c5_text_rule, c5_dim_rule] 1
      c5_dim_rule {}).highlights.map HighlightedElement.status = ["correct"]
  ∧ (processCondition [] [c5_barcode (294/10)] [c5_text_rule, c5_dim_rule] 1
      c5_dim_rule {}).highlights.map HighlightedElement.status = ["wrong"] := by
  have hpe : p.isEmpty = false := by
    cases hb : p.isEmpty
    · rfl
    · exact absurd ((String.isEmpty_iff p).mp hb) hpne
  rcases c with ⟨t, desc, et, cs, ew, eh, tol⟩
  obtain rfl : t = RuleType.barcode_dimensions := htype
  refine ⟨?_, ?_, by with_unfolding_all decide, by with_unfolding_all decide,
    by with_unfolding_all decide⟩
  · intro hok0
    have hok : (specDimOk ew mw (pyOrQ tol (1/2))
        && specDimOk eh mh (pyOrQ tol (1/2))) = true := hok0
    simp only [processCondition, evalCondition, evalBarcode, hne, hfind, hp, hpe, hbc,
      hmw, hmh, dimOk_some, hbb]
    simp only [if_pos hok]
    rfl
  · intro hok0
    have hok : (specDimOk ew mw (pyOrQ tol (1/2))
        && specDimOk eh mh (pyOrQ tol (1/2))) = false := hok0
    have hnc : ¬ ((specDimOk ew mw (pyOrQ tol (1/2))
        && specDimOk eh mh (pyOrQ tol (1/2))) = true) := by
      rw [hok]
      exact Bool.false_ne_true
    simp only [processCondition, evalCondition, evalBarcode, hne, hfind, hp, hpe, hbc,
      hmw, hmh, dimOk_some, hbb]
    simp only [if_neg hnc]
    rfl

/-- C5 witness: the amended barcode-dimension behaviour at the concrete
29.6mm-vs-30.0mm input, all resolution hypotheses discharged. -/
theorem claim_C5_witness :
    c5_dim_rule.type = RuleType.barcode_dimensions
  ∧ ([c5_barcode (296/10)] : List Barcode).isEmpty = false
  ∧ ([c5_text_rule, c5_dim_rule].find? (fun r =>
        decide (r.type = RuleType.exact_text_match)
          && decide (r.target_element_description
            = c5_dim_rule.target_element_description)) = some c5_text_rule)
  ∧ c5_text_rule.expected_text = some "012345"
  ∧ ("012345" : String) ≠ ""
  ∧ ([c5_barcode (296/10)].find? (fun bc => decide (bc.data = some "012345"))
      = some (c5_barcode (296/10)))
  ∧ (c5_barcode (296/10)).measured_width_mm = some (296/10)
  ∧ (c5_barcode (296/10)).measured_height_mm = some 20
  ∧ (c5_barcode (296/10)).bounding_box = some { x := 1, y := 2, width := 3, height := 4 }
  ∧ processCondition [] [c5_barcode (296/10)] [c5_text_rule, c5_dim_rule] 1
      c5_dim_rule {}
      = { matches_count := 1
          highlights := [{
            rule_id_ref := some "rule_2_barcode_dimensions"
            bounding_box := { x := 1, y := 2, width := 3, height := 4 }
            status := "correct"
            message := "Barcode (012345) dimensions are valid."
            expected_value := some "W:30.0mm, H:Nonemm" }] } := by
  refine ⟨rfl, rfl, rfl, rfl, by decide, rfl, rfl, rfl, rfl, ?_⟩
  have h := (claim_C5_amended [] [c5_barcode (296/10)] [c5_text_rule, c5_dim_rule] 1
    c5_dim_rule {} c5_text_rule "012345" (c5_barcode (296/10)) (296/10) 20
    { x := 1, y := 2, width := 3, height := 4 } rfl rfl rfl rfl (by decide) rfl rfl rfl
    rfl).1 (by with_unfolding_all decide)
  exact h.trans (by with_unfolding_all rfl)

/-! ## Helper lemmas for the token-set scorer on equal inputs -/

lemma processChar_ne_space (c : Char) (h : wordChar c = true) :
    processChar c ≠ ' ' := by
  rw [processChar, if_pos h, Char.toLower]
  by_cases hb : c.toNat ≥ 65 ∧ c.toNat ≤ 90
  · rw [if_pos hb]
    obtain ⟨h1, h2⟩ := hb
    set k := c.toNat with hk
    interval_cases k <;> decide
  · rw [if_neg hb]
    intro he
    rw [he] at h
    exact absurd h (by decide)

lemma wordsAux_ne_nil : ∀ (l acc : List Char),
    ((∃ c ∈ l, c ≠ ' ') ∨ acc ≠ []) → wordsAux l acc ≠ [] := by
  intro l
  induction l with
  | nil =>
    intro acc h
    rcases h with ⟨c, hc, _⟩ | h
    · cases hc
    · have : acc.isEmpty = false := by
        cases he : acc.isEmpty
        · rfl
        · exact absurd (List.isEmpty_iff.mp he) h
      simp [wordsAux, this]
  | cons x xs ih =>
    intro acc h
    by_cases hx : x = ' '
    · subst hx
      rw [wordsAux]
      cases he : acc.isEmpty
      · simp only [he, Bool.false_eq_true, if_false]
        exact fun hcontra => (List.cons_ne_nil _ _) hcontra
      · simp only [he, if_true]
        have hxs : ∃ c ∈ xs, c ≠ ' ' := by
          rcases h with ⟨c, hc, hne⟩ | h
          · rcases List.mem_cons.mp hc with rfl | hm
            · exact absurd rfl hne
            · exact ⟨c, hm, hne⟩
          · exact absurd (List.isEmpty_iff.mp he) h
        exact ih [] (Or.inl hxs)
    · rw [wordsAux, if_neg hx]
      exact ih (x :: acc) (Or.inr (List.cons_ne_nil x acc))

lemma length_insertSorted (lt : α → α → Bool) (a : α) :
    ∀ l : List α, (insertSorted lt a l).length = l.length + 1 := by
  intro l
  induction l with
  | nil => rfl
  | cons b bs ih =>
    rw [insertSorted]
    by_cases hb : lt a b
    · simp [hb]
    · simp [hb, ih]

lemma length_stableSort (lt : α → α → Bool) (l : List α) :
    (stableSort lt l).length = l.length := by
  suffices h : ∀ (l acc : List α),
      (l.foldl (fun acc x => insertSorted lt x acc) acc).length
        = acc.length + l.length by
    simpa using h l []
  intro l
  induction l with
  | nil => intro acc; simp
  | cons x xs ih =>
    intro acc
    simp only [List.foldl_cons, ih, length_insertSorted, List.length_cons]
    omega

lemma tokenSetOf_ne_nil (s : String) (h : ∃ c ∈ s.toList, wordChar c = true) :
    tokenSetOf s ≠ [] := by
  obtain ⟨c, hc, hw⟩ := h
  have hwords : wordsOf (s.toList.map processChar) ≠ [] := by
    apply wordsAux_ne_nil
    exact Or.inl ⟨processChar c, List.mem_map_of_mem processChar hc,
      processChar_ne_space c hw⟩
  have hdedup : (wordsOf (s.toList.map processChar)).dedup ≠ [] :=
    fun he => hwords ((List.dedup_eq_nil _).mp he)
  intro he
  have := length_stableSort tokLt ((wordsOf (s.toList.map processChar)).dedup)
  rw [tokenSetOf] at he
  rw [he] at this
  exact hdedup (List.length_eq_zero.mp this.symm)

lemma tokenSetScore_self (s : String) (h : ∃ c ∈ s.toList, wordChar c = true) :
    tokenSetScore s s = 100 := by
  have hne : tokenSetOf s ≠ [] := tokenSetOf_ne_nil s h
  have hemp : (tokenSetOf s).isEmpty = false := by
    cases he : (tokenSetOf s).isEmpty
    · rfl
    · exact absurd (List.isEmpty_iff.mp he) hne
  have hd12 : (tokenSetOf s).filter (fun w => decide (w ∉ tokenSetOf s)) = [] :=
    List.filter_eq_nil_iff.mpr (fun a ha => by simp [ha])
  have hsect : (tokenSetOf s).filter (fun w => decide (w ∈ tokenSetOf s))
      = tokenSetOf s :=
    List.filter_eq_self.mpr (fun a ha => decide_eq_true ha)
  simp [tokenSetScore, hemp, hd12, hsect]

lemma get_text_similarity_self (s : String) (h : ∃ c ∈ s.toList, wordChar c = true) :
    get_text_similarity s s = 1 := by
  have hne : s ≠ "" := by
    obtain ⟨c, hc, _⟩ := h
    intro he
    subst he
    cases hc
  have hemp : s.isEmpty = false := by
    cases he : s.isEmpty
    · rfl
    · exact absurd ((String.isEmpty_iff s).mp he) hne
  rw [get_text_similarity]
  simp only [hemp, Bool.or_self, Bool.false_eq_true, if_false]
  rw [tokenSetScore_self s h]
  norm_num

/-- C6 counterexample: for the equal non-empty strings `"!!"` (no word
characters survive thefuzz's full processing) the similarity is 0, not
1.0, and an EXACT_TEXT_MATCH condition whose `expected_text` `"!!"` occurs
verbatim among the candidates yields the sentinel `wrong` verdict, not
`correct`. -/
theorem claim_C6_counterexample :
    ("!!" : String) ≠ ""
  ∧ get_text_similarity "!!" "!!" = 0
  ∧ (processCondition (searchable_text_items
      [{ text := "!!", left := 0, top := 0, width := 10, height := 10, confidence := 9/10 }])
      [] [{ type := RuleType.exact_text_match, expected_text := some "!!" }] 0
      { type := RuleType.exact_text_match, expected_text := some "!!" } {}).matches_count
      = 0
  ∧ (processCondition (searchable_text_items
      [{ text := "!!", left := 0, top := 0, width := 10, height := 10, confidence := 9/10 }])
      [] [{ type := RuleType.exact_text_match, expected_text := some "!!" }] 0
      { type := RuleType.exact_text_match, expected_text := some "!!" } {}).highlights.map
        HighlightedElement.status = ["wrong"] := by
  with_unfolding_all decide

/-- C6 (amended): for equal non-empty strings containing at least one word
character (ASCII letter, digit or underscore — so that full processing
does not erase them), the similarity is exactly 1.0; and an
EXACT_TEXT_MATCH condition whose `expected_text` contains a word character
and occurs verbatim as some candidate's text yields verdict `correct` and
a match-counter increment. -/
theorem claim_C6_amended :
    (∀ s : String, (∃ c ∈ s.toList, wordChar c = true) →
      get_text_similarity s s = 1)
  ∧ (∀ (pool : List OCRData) (detected_barcodes : List Barcode)
        (conds : List RuleCondition) (i : Nat) (c : RuleCondition) (st : EngineState)
        (expected : String),
      c.type = RuleType.exact_text_match →
      c.expected_text = some expected →
      (∃ ch ∈ expected.toList, wordChar ch = true) →
      (∃ it ∈ pool, it.text = expected) →
      (processCondition pool detected_barcodes conds i c st).matches_count
          = st.matches_count + 1
      ∧ ∃ hl, (processCondition pool detected_barcodes conds i c st).highlights
            = st.highlights ++ [hl] ∧ hl.status = "correct") := by
  refine ⟨fun s h => get_text_similarity_self s h, ?_⟩
  intro pool detected_barcodes conds i c st expected htype het hch hit
  rcases c with ⟨t, desc, et, cs, ew, eh, tol⟩
  obtain rfl : t = RuleType.exact_text_match := htype
  obtain rfl : et = some expected := het
  have hne : expected ≠ "" := by
    obtain ⟨ch, hc, _⟩ := hch
    intro he
    subst he
    cases hc
  have hemp : expected.isEmpty = false := by
    cases hb : expected.isEmpty
    · rfl
    · exact absurd ((String.isEmpty_iff expected).mp hb) hne
  obtain ⟨it, hmem, htext⟩ := hit
  have hscore : get_text_similarity expected it.text = 1 := by
    rw [htext]
    exact get_text_similarity_self expected hch
  have hmax : (1 : ℚ) ≤ maxScore expected pool := by
    rw [← hscore]
    exact score_le_foldl_max expected pool 0 it hmem
  have hperf : PERFECT_MATCH_THRESHOLD ≤ (findBestMatch expected pool).1 := by
    rw [findBestMatch_fst]
    exact le_trans (by norm_num [PERFECT_MATCH_THRESHOLD]) hmax
  have h0 : 0 < maxScore expected pool :=
    lt_of_lt_of_le (by norm_num) hmax
  obtain ⟨it', hit'⟩ := findBestMatch_isSome expected pool h0
  have hpc : processCondition pool detected_barcodes conds i
      ⟨RuleType.exact_text_match, desc, some expected, cs, ew, eh, tol⟩ st
      = { st with
          highlights := st.highlights ++ [{
            rule_id_ref := some (ruleIdRef i RuleType.exact_text_match)
            bounding_box := { x := it'.left, y := it'.top,
                              width := it'.width, height := it'.height }
            status := "correct"
            message := "Found expected text: '" ++ expected ++ "'"
            found_value := some it'.text
            expected_value := some expected }]
          matches_count := st.matches_count + 1 } := by
    simp only [processCondition, evalCondition, hemp, Bool.false_eq_true, if_false,
      evalExact, if_pos hperf, hit']
  rw [hpc]
  exact ⟨rfl, ⟨_, rfl, rfl⟩⟩

/-- C6 witness: the amended similarity property at a concrete input. -/
theorem claim_C6_witness :
    (∃ c ∈ ("hi" : String).toList, wordChar c = true)
  ∧ get_text_similarity "hi" "hi" = 1 :=
  ⟨⟨'h', by decide, by decide⟩,
    claim_C6_amended.1 "hi" ⟨'h', by decide, by decide⟩⟩

/-- C2 witness: the case-sensitivity invariance at a concrete input. -/
theorem claim_C2_witness :
    processCondition [] [] [] 0
      { ({ type := RuleType.spacing } : RuleCondition) with case_sensitive := some false }
      {}
      = processCondition [] [] [] 0 { type := RuleType.spacing } {} :=
  claim_C2_amended [] [] [] 0 { type := RuleType.spacing } (some false) {}

/-- C9 witness: the rule-id format and best-score characterisation at a
concrete input. -/
theorem claim_C9_witness :
    ruleIdRef 0 RuleType.exact_text_match
      = "rule_" ++ toString (0 + 1) ++ "_" ++ RuleType.exact_text_match.value
  ∧ (findBestMatch "a" ([] : List OCRData)).1 = maxScore "a" [] :=
  ⟨claim_C9.1 0 RuleType.exact_text_match, claim_C9.2.1 "a" []⟩

/-- C10 witness: the in-place-sort model at a concrete input. -/
theorem claim_C10_witness :
    (reconstruct_text_blocks ([] : List OCRData)).1 = sortByTopLeft [] :=
  claim_C10.1 []

end LabelAI
